import Mathlib

/-!
Verification of the Sphinx configuration module `docs/conf.py` of the
gpio_manager repository.

The module is embedded shallowly: each executable statement of the file
(two imports, one search-path insertion, eleven assignments of literal
values) becomes a constructor application in a statement list, and module
evaluation is a fold of a small-step executor over a state that records
the working directory, the directory holding the configuration file, the
interpreter search path, the imported module names, and the module
namespace.  Filesystem paths are modelled as their component lists from
the root.
-/

/-- A filesystem path, as its list of components from the root. -/
abbrev FsPath := List String

/-- Model of os.path.abspath evaluated in working directory `cwd`, for
the argument forms a configuration file can use: `".."` resolves to the
parent directory of `cwd`, `"."` to `cwd` itself, and a plain name to a
child of `cwd`.  The source uses only the `".."` form. -/
def abspath (cwd : FsPath) (p : String) : FsPath :=
  if p = ".." then cwd.dropLast
  else if p = "." then cwd
  else cwd ++ [p]

/-- The scalar literal forms occurring in the module. -/
inductive PyScalar where
  | str (s : String)
  | bool (b : Bool)
deriving DecidableEq, Repr

/-- Whether a scalar is a string literal. -/
def PyScalar.isStr : PyScalar → Bool
  | .str _ => true
  | .bool _ => false

/-- Whether a scalar is a boolean literal. -/
def PyScalar.isBool : PyScalar → Bool
  | .str _ => false
  | .bool _ => true

/-- The value forms occurring on the right-hand side of the assignments
of the module: a scalar, a list of scalars, or a dict with string keys
and scalar values. -/
inductive PyVal where
  | scalar (v : PyScalar)
  | list (l : List PyScalar)
  | dict (m : List (String × PyScalar))
deriving DecidableEq, Repr

/-- The path-valued expression forms occurring in the module. -/
inductive PathExpr where
  | abspathOf (p : String)
deriving DecidableEq, Repr

/-- Evaluate a path expression in working directory `cwd`. -/
def evalPathExpr (cwd : FsPath) : PathExpr → FsPath
  | .abspathOf p => abspath cwd p

/-- The statement forms occurring in the module. -/
inductive Stmt where
  | importMod (m : String)
  | sysPathInsert (idx : Nat) (e : PathExpr)
  | assign (name : String) (v : PyVal)
deriving DecidableEq, Repr

/-- Model of Python list.insert: place `x` before position `idx`. -/
def pyListInsert (l : List α) (idx : Nat) (x : α) : List α :=
  l.take idx ++ x :: l.drop idx

/-- The state touched by evaluating the module: the working directory of
the process, the directory holding the configuration file (neither is
written by the module), the interpreter search path `sys.path`, the
imported module names, and the module namespace built up by the
assignments in order. -/
structure ModuleState where
  cwd : FsPath
  confDir : FsPath
  sysPath : List FsPath
  imported : List String
  env : List (String × PyVal)
deriving DecidableEq, Repr

/-- Execute one statement. -/
def execStmt (st : ModuleState) : Stmt → ModuleState
  | .importMod m => { st with imported := st.imported ++ [m] }
  | .sysPathInsert idx e =>
      { st with sysPath := pyListInsert st.sysPath idx (evalPathExpr st.cwd e) }
  | .assign n v => { st with env := st.env ++ [(n, v)] }

/-- The statement list of `docs/conf.py`, in source order. -/
def confStmts : List Stmt :=
  [ .importMod "sys"
  , .importMod "os"
  , .sysPathInsert 0 (.abspathOf "..")
  , .assign "project" (.scalar (.str "gpio-manager"))
  , .assign "copyright" (.scalar (.str "2024, Rylan Meilutis"))
  , .assign "author" (.scalar (.str "Rylan Meilutis"))
  , .assign "release" (.scalar (.str "2.1.14"))
  , .assign "extensions" (.list [.str "sphinx.ext.autodoc"])
  , .assign "templates_path" (.list [.str "_templates"])
  , .assign "exclude_patterns" (.list [.str "_build", .str "Thumbs.db", .str ".DS_Store"])
  , .assign "html_theme" (.scalar (.str "furo"))
  , .assign "html_theme_options"
      (.dict [("sidebar_hide_name", .bool false), ("navigation_with_keys", .bool true)])
  , .assign "html_title" (.scalar (.str "GPIO Manager Documentation"))
  , .assign "html_static_path" (.list [.str "_static"])
  ]

/-- Evaluate the module from working directory `cwd`, with the
configuration file living in directory `confDir`, against the initial
interpreter search path `sp`. -/
def evalModule (cwd confDir : FsPath) (sp : List FsPath) : ModuleState :=
  confStmts.foldl execStmt ⟨cwd, confDir, sp, [], []⟩

/-- Lookup in the module namespace: the latest assignment to `n` wins,
matching assignment semantics of the interpreter. -/
def envGet (env : List (String × PyVal)) (n : String) : Option PyVal :=
  (env.reverse.find? (fun p => p.1 == n)).map (fun p => p.2)

/-- The eleven configuration field names, in source order. -/
def configNames : List String :=
  ["project", "copyright", "author", "release", "extensions",
   "templates_path", "exclude_patterns", "html_theme",
   "html_theme_options", "html_title", "html_static_path"]

/-- How many statements of `stmts` assign to name `n`. -/
def countAssignsTo (stmts : List Stmt) (n : String) : Nat :=
  (stmts.filter (fun s => match s with | .assign m _ => m == n | _ => false)).length

/-- How many statements of `stmts` modify the search path. -/
def countSysPathInserts (stmts : List Stmt) : Nat :=
  (stmts.filter (fun s => match s with | .sysPathInsert _ _ => true | _ => false)).length

/-- The namespace value at `n` is a non-empty string literal. -/
def isNonemptyStr (v : Option PyVal) : Bool :=
  match v with
  | some (.scalar (.str s)) => s != ""
  | _ => false

/-- The namespace value at `n` is a non-empty list literal. -/
def isNonemptyList (v : Option PyVal) : Bool :=
  match v with
  | some (.list l) => !l.isEmpty
  | _ => false

/-- A directory listing is ancestor-closed: the parent of every listed
directory is listed.  Every real filesystem satisfies this, the root
being its own parent. -/
def ancestorClosed (fs : List FsPath) : Prop := ∀ p ∈ fs, p.dropLast ∈ fs

/-- The module namespace produced by evaluation, written out. -/
def confEnv : List (String × PyVal) :=
  [ ("project", .scalar (.str "gpio-manager"))
  , ("copyright", .scalar (.str "2024, Rylan Meilutis"))
  , ("author", .scalar (.str "Rylan Meilutis"))
  , ("release", .scalar (.str "2.1.14"))
  , ("extensions", .list [.str "sphinx.ext.autodoc"])
  , ("templates_path", .list [.str "_templates"])
  , ("exclude_patterns", .list [.str "_build", .str "Thumbs.db", .str ".DS_Store"])
  , ("html_theme", .scalar (.str "furo"))
  , ("html_theme_options",
      .dict [("sidebar_hide_name", .bool false), ("navigation_with_keys", .bool true)])
  , ("html_title", .scalar (.str "GPIO Manager Documentation"))
  , ("html_static_path", .list [.str "_static"])
  ]

/-- Helper: the module namespace after evaluation is `confEnv`, whatever
the working directory, configuration-file directory and initial search
path. -/
theorem evalModule_env (cwd confDir : FsPath) (sp : List FsPath) :
    (evalModule cwd confDir sp).env = confEnv := rfl

/-- Helper: the search path after evaluating the module is the resolved
`".."` prepended to the initial search path. -/
theorem evalModule_sysPath (cwd confDir : FsPath) (sp : List FsPath) :
    (evalModule cwd confDir sp).sysPath = abspath cwd ".." :: sp := rfl

/-- Helper: dropping the last element of a list extended by one element
recovers the list. -/
theorem dropLast_append_singleton (l : List α) (a : α) : (l ++ [a]).dropLast = l := by
  simp

/-- C1: evaluating the module binds exactly the eleven named
configuration fields, in source order, and performs the search-path
insertion; no other configuration name is bound. -/
theorem conf_defines_named_fields_and_inserts_path (cwd confDir : FsPath) (sp : List FsPath) :
    (evalModule cwd confDir sp).env.map Prod.fst = configNames ∧
    (evalModule cwd confDir sp).sysPath = abspath cwd ".." :: sp :=
  ⟨rfl, rfl⟩

/-- C2: after evaluating the module, project, copyright, author, release,
html_theme and html_title are bound to non-empty strings, and extensions,
templates_path, exclude_patterns and html_static_path are bound to
non-empty lists. -/
theorem conf_field_values_nonempty (cwd confDir : FsPath) (sp : List FsPath) :
    (isNonemptyStr (envGet (evalModule cwd confDir sp).env "project")
      && isNonemptyStr (envGet (evalModule cwd confDir sp).env "copyright")
      && isNonemptyStr (envGet (evalModule cwd confDir sp).env "author")
      && isNonemptyStr (envGet (evalModule cwd confDir sp).env "release")
      && isNonemptyStr (envGet (evalModule cwd confDir sp).env "html_theme")
      && isNonemptyStr (envGet (evalModule cwd confDir sp).env "html_title")
      && isNonemptyList (envGet (evalModule cwd confDir sp).env "extensions")
      && isNonemptyList (envGet (evalModule cwd confDir sp).env "templates_path")
      && isNonemptyList (envGet (evalModule cwd confDir sp).env "exclude_patterns")
      && isNonemptyList (envGet (evalModule cwd confDir sp).env "html_static_path")) = true := by
  rw [evalModule_env]
  decide

/-- C3: evaluated from inside a directory of the project (in a build the
working directory is the directory of the configuration file, whose
parent is the project root), the module prepends the absolute path of
that parent directory to the search path. -/
theorem conf_path_insertion_adds_parent_dir (parent : FsPath) (d : String)
    (confDir : FsPath) (sp : List FsPath) :
    (evalModule (parent ++ [d]) confDir sp).sysPath = parent :: sp := by
  rw [evalModule_sysPath]
  simp [abspath]

/-- C4: evaluating the module changes the search path exactly by
prepending one entry at index 0, the path obtained by resolving ".."
against the working directory; the result does not depend on the
directory holding the configuration file, and every pre-existing entry
is retained unchanged, in order, after the new head. -/
theorem conf_sysPath_prepend_frame (cwd confDir confDir2 : FsPath) (sp : List FsPath) :
    (evalModule cwd confDir sp).sysPath = abspath cwd ".." :: sp ∧
    (evalModule cwd confDir sp).sysPath = (evalModule cwd confDir2 sp).sysPath :=
  ⟨evalModule_sysPath cwd confDir sp, rfl⟩

/-- C5: the value bound to exclude_patterns is a list of string literals
containing no duplicates, hence it denotes a set of glob patterns. -/
theorem conf_exclude_patterns_set_like (cwd confDir : FsPath) (sp : List FsPath) :
    ∃ pats, envGet (evalModule cwd confDir sp).env "exclude_patterns" = some (.list pats)
      ∧ pats.Nodup ∧ ∀ x ∈ pats, x.isStr = true :=
  ⟨[.str "_build", .str "Thumbs.db", .str ".DS_Store"],
    by rw [evalModule_env]; decide, by decide, by decide⟩

/-- C6: each configuration field is assigned exactly once in the module
(no field is ever reassigned), exactly one statement modifies the search
path, and evaluation leaves every state component other than the search
path and the module namespace unchanged. -/
theorem conf_no_mutation_no_persistence :
    (configNames.all fun n => countAssignsTo confStmts n == 1) = true ∧
    countSysPathInserts confStmts = 1 ∧
    ∀ cwd confDir sp, (evalModule cwd confDir sp).cwd = cwd ∧
      (evalModule cwd confDir sp).confDir = confDir ∧
      (evalModule cwd confDir sp).sysPath = abspath cwd ".." :: sp :=
  ⟨by decide, rfl, fun cwd confDir sp => ⟨rfl, rfl, evalModule_sysPath cwd confDir sp⟩⟩

/-- C7: the value bound to html_theme_options is a dict whose keys are
strings and whose values are all boolean literals. -/
theorem conf_theme_options_bool_valued (cwd confDir : FsPath) (sp : List FsPath) :
    ∃ opts, envGet (evalModule cwd confDir sp).env "html_theme_options" = some (.dict opts)
      ∧ ∀ kv ∈ opts, (Prod.snd kv).isBool = true :=
  ⟨[("sidebar_hide_name", .bool false), ("navigation_with_keys", .bool true)],
    by rw [evalModule_env]; decide, by decide⟩

/-- C8: the value bound to extensions is a list, hence an ordered
sequence, every element of which is a string literal. -/
theorem conf_extensions_string_list (cwd confDir : FsPath) (sp : List FsPath) :
    ∃ exts, envGet (evalModule cwd confDir sp).env "extensions" = some (.list exts)
      ∧ ∀ x ∈ exts, x.isStr = true :=
  ⟨[.str "sphinx.ext.autodoc"], by rw [evalModule_env]; decide, by decide⟩

/-- C9: the module namespace produced by evaluation, and with it every
configuration field value, is identical across any two evaluations,
whatever the working directory, the configuration-file directory and the
initial search path of each. -/
theorem conf_eval_deterministic (cwd1 confDir1 cwd2 confDir2 : FsPath)
    (sp1 sp2 : List FsPath) :
    (evalModule cwd1 confDir1 sp1).env = (evalModule cwd2 confDir2 sp2).env :=
  rfl

/-- C10: on any ancestor-closed directory listing (as every real
filesystem is) that contains the working directory, the path the module
prepends to the search path is itself a listed directory: the resolved
parent directory exists at build time. -/
theorem conf_inserted_path_exists (fs : List FsPath) (cwd confDir : FsPath)
    (sp : List FsPath) (h1 : ancestorClosed fs) (h2 : cwd ∈ fs) :
    ∃ p, ((evalModule cwd confDir sp).sysPath).head? = some p ∧ p ∈ fs := by
  refine ⟨cwd.dropLast, ?_, h1 cwd h2⟩
  rw [evalModule_sysPath]
  simp [abspath]

/-- Witness for C10 at a concrete filesystem and working directory. -/
theorem conf_inserted_path_exists_witness :
    ∃ p, ((evalModule ["proj", "docs"] ["proj", "docs"] []).sysPath).head? = some p
      ∧ p ∈ [([] : FsPath), ["proj"], ["proj", "docs"]] :=
  conf_inserted_path_exists [[], ["proj"], ["proj", "docs"]] ["proj", "docs"]
    ["proj", "docs"] [] (by unfold ancestorClosed; decide) (by decide)
